import Mathlib

/-!
Verification development for the CoolStat match-event analytics pipeline
(src/CoolStat.py).  The Python source is shallowly embedded: pandas row
selections become `List.filter` chains, `ast.literal_eval` on serialized
location fields becomes an executable literal parser for the list-of-numbers
fragment actually stored in those fields, Python exceptions become an
`Except` error channel, and floating point numerics become exact `ℚ`/`ℝ`
arithmetic.
-/

namespace CoolStat

/-- A raw cell of a `location` / `pass_end_location` column: SQL `NULL`
(pandas `NaN`), a serialized textual list, or an already-native list of
coordinates. -/
inductive Field where
  | null : Field
  | str : String → Field
  | list : List ℚ → Field
deriving DecidableEq

/-- The Python exceptions that can escape the embedded code paths, together
with the two error classes the specification mandates (`MalformedFieldError`,
`InsufficientDataError`), which the source never raises.
`valueError` stands for `ValueError`/`SyntaxError` from `ast.literal_eval`
and for scipy's `ValueError` on an empty KDE dataset; `linAlgError` for
`numpy.linalg.LinAlgError` from the Cholesky factorisation of a singular or
NaN covariance; `typeError` for the `TypeError`/`IndexError` raised when a
non-list location reaches positional indexing or the DataFrame column split. -/
inductive PyError where
  | valueError : PyError
  | typeError : PyError
  | linAlgError : PyError
  | malformedFieldError : PyError
  | insufficientDataError : PyError
deriving DecidableEq

/-! ### The literal parser (`ast.literal_eval` on serialized locations)

`ast.literal_eval` is a safe structured-literal parser.  The location fields
of the event tables hold exactly the fragment parsed here: a bracketed,
comma-separated list of signed decimal numbers (e.g. `"[34.5, 12.1]"`).
Any string outside this fragment makes `ast.literal_eval` raise
`ValueError`/`SyntaxError`; the parser returns `none` there. -/

/-- Drop leading spaces. -/
def skipSpaces : List Char → List Char
  | ' ' :: cs => skipSpaces cs
  | cs => cs

/-- Split a leading run of decimal digits from the rest. -/
def takeDigits : List Char → List Char × List Char
  | [] => ([], [])
  | c :: cs =>
    if c.isDigit then
      let (ds, rest) := takeDigits cs
      (c :: ds, rest)
    else ([], c :: cs)

/-- Numeric value of a digit run. -/
def digitsVal (ds : List Char) : ℕ :=
  ds.foldl (fun acc c => 10 * acc + (c.toNat - 48)) 0

/-- Parse one signed decimal number, returning its value and the unconsumed
input. -/
def parseNumber (cs : List Char) : Option (ℚ × List Char) :=
  let signed : Bool × List Char :=
    match cs with
    | '-' :: rest => (true, rest)
    | _ => (false, cs)
  match takeDigits signed.2 with
  | ([], _) => none
  | (ds, rest) =>
    match rest with
    | '.' :: rest2 =>
      let (fs, rest3) := takeDigits rest2
      let v : ℚ := (digitsVal ds : ℚ) + (digitsVal fs : ℚ) / (10 : ℚ) ^ fs.length
      some (if signed.1 then -v else v, rest3)
    | _ =>
      let v : ℚ := (digitsVal ds : ℚ)
      some (if signed.1 then -v else v, rest)

/-- Parse the comma-separated elements of a list literal up to and including
the closing bracket.  The fuel argument bounds recursion by the input length. -/
def parseElems : ℕ → List Char → Option (List ℚ × List Char)
  | 0, _ => none
  | fuel + 1, cs =>
    match parseNumber (skipSpaces cs) with
    | none => none
    | some (q, rest) =>
      match skipSpaces rest with
      | ']' :: rest2 => some ([q], rest2)
      | ',' :: rest2 =>
        match parseElems fuel rest2 with
        | some (qs, rest3) => some (q :: qs, rest3)
        | none => none
      | _ => none

/-- `ast.literal_eval` on the list-of-numbers fragment stored in location
fields: `some` coordinates on a well-formed list literal, `none` (Python:
`ValueError`/`SyntaxError`) otherwise. -/
def literal_eval (s : String) : Option (List ℚ) :=
  match skipSpaces s.toList with
  | '[' :: rest =>
    match skipSpaces rest with
    | ']' :: rest2 => if (skipSpaces rest2).isEmpty then some [] else none
    | _ =>
      match parseElems (s.length + 1) rest with
      | some (qs, rest2) => if (skipSpaces rest2).isEmpty then some qs else none
      | none => none
  | _ => none

example : literal_eval "[34, 12]" = some [(34 : ℚ), (12 : ℚ)] := by decide

/-- Line 103/104/276/336 of the source: parse a location cell when it is a
string, keep it unchanged (including `NaN`) otherwise; an unparsable string
raises the parser's `ValueError`. -/
def normalize_location (f : Field) : Except PyError Field :=
  match f with
  | .str s =>
    match literal_eval s with
    | some xs => .ok (.list xs)
    | none => .error .valueError
  | f => .ok f

/-! ### Event rows of the competition event tables (`euro_all_events` /
`copa_america_all_events`)

One row per match event, with the columns the embedded code paths read.
`id` is the StatsBomb event identifier (unique per row); fields that pandas
may hold as `NaN` are `Option`s. -/

structure Event where
  id : ℕ
  match_id : ℕ
  team : String
  player : String
  type : String
  minute : ℕ
  pass_type : Option String
  pass_outcome : Option String
  location : Field
  pass_end_location : Field
  shot_type : Option String
  shot_outcome : Option String
  shot_statsbomb_xg : ℚ
deriving DecidableEq

/-- Normalize the two location columns of a pass row (source lines 103-104).
The source normalizes column-by-column over the whole frame; an unparsable
cell in either column aborts the call with the same `ValueError` either way,
so per-row sequencing is observationally equal. -/
def normalize_event (e : Event) : Except PyError Event :=
  match normalize_location e.location, normalize_location e.pass_end_location with
  | .ok l, .ok pel => .ok { e with location := l, pass_end_location := pel }
  | .error err, _ => .error err
  | _, .error err => .error err

/-- Normalize only the `location` column (source lines 276 and 336). -/
def normalize_event_loc (e : Event) : Except PyError Event :=
  match normalize_location e.location with
  | .ok l => .ok { e with location := l }
  | .error err => .error err

/-- The start coordinates of a normalized 2-D location, when it is a
two-element list (the shape `pd.DataFrame(...tolist())` splits into the
`x`/`y` columns). -/
def split_xy (f : Field) : Option (ℚ × ℚ) :=
  match f with
  | .list [a, b] => some (a, b)
  | _ => none

/-- Apply a fallible per-cell transform down a column (pandas
`Series.apply`): the first raised error aborts the call. -/
def mapExcept (f : α → Except PyError β) : List α → Except PyError (List β)
  | [] => .ok []
  | a :: l =>
    match f a with
    | .error err => .error err
    | .ok b =>
      match mapExcept f l with
      | .error err => .error err
      | .ok bs => .ok (b :: bs)

/-- `load_passes` (source lines 97-113): select the match's `Pass` rows,
parse both location columns, drop rows where either is null, and split the
coordinates.  The final coordinate split
(`passes[['x','y']] = pd.DataFrame(...)`) fails unless every retained
location is a two-element list. -/
def load_passes (events : List Event) (mid : ℕ) : Except PyError (List Event) :=
  match mapExcept normalize_event (events.filter fun e => e.type == "Pass" && e.match_id == mid) with
  | .error err => .error err
  | .ok parsed =>
    let passes := parsed.filter fun e =>
      e.location != Field.null && e.pass_end_location != Field.null
    if passes.all fun e => (split_xy e.location).isSome && (split_xy e.pass_end_location).isSome
    then .ok passes else .error .typeError

/-- `filter_passes` (source lines 115-129): drop throw-ins, restrict to the
player, and split on `pass_outcome` null-ness into successful and
unsuccessful passes. -/
def filter_passes (player : String) (mid : ℕ) (events : List Event) :
    Except PyError (List Event × List Event) :=
  match load_passes events mid with
  | .error err => .error err
  | .ok loaded =>
    let passes := loaded.filter fun e => e.pass_type != some "Throw-in"
    let player_passes := passes.filter fun e => e.player == player
    let successful := player_passes.filter fun e => e.pass_outcome.isNone
    let unsuccessful := player_passes.filter fun e => e.pass_outcome.isSome
    .ok (successful, unsuccessful)

/-- `filter_heatmap` (source lines 264-281) on an already-loaded event
table: the match's `Pass` rows of the team, with the `location` column
parsed and then split into `x`/`y` coordinates.  No location-presence or
pass-type filter is applied, so the split fails (and the call raises)
whenever a retained location is not a two-element list. -/
def filter_heatmap_rows (events : List Event) (team : String) (mid : ℕ) :
    Except PyError (List Event) :=
  match mapExcept normalize_event_loc
      ((events.filter fun e => e.match_id == mid).filter fun e =>
        e.type == "Pass" && e.team == team) with
  | .error err => .error err
  | .ok team_passes =>
    if team_passes.all fun e => (split_xy e.location).isSome
    then .ok team_passes else .error .typeError

/-- `filter_shots` (source lines 324-338): the match's `Shot` rows of the
team, with the `location` column parsed. -/
def filter_shots (events : List Event) (team : String) (mid : ℕ) :
    Except PyError (List Event) :=
  mapExcept normalize_event_loc
    ((events.filter fun e => e.match_id == mid).filter fun e =>
      e.type == "Shot" && e.team == team)

/-- One scatter marker drawn by `shot_map` (source lines 352-366). -/
structure ShotMarker where
  x : ℚ
  y : ℚ
  size : ℚ
  is_goal : Bool
deriving DecidableEq

/-- The marker `shot_map` draws for one shot row: position from
`shot['location'][0]`/`[1]` (a non-indexable or too-short location raises),
size `1500 * shot['shot_statsbomb_xg']` taken from the raw xg value, green
circle on `shot_outcome == 'Goal'`. -/
def shot_marker (e : Event) : Except PyError ShotMarker :=
  match e.location with
  | .list (a :: b :: _) =>
    .ok { x := a, y := b, size := 1500 * e.shot_statsbomb_xg,
          is_goal := e.shot_outcome == some "Goal" }
  | _ => .error .typeError

/-- `shot_map` (source lines 340-366) up to the drawn markers: take the
team's shots, exclude penalties, and draw one marker per remaining shot. -/
def shot_map_markers (events : List Event) (team : String) (mid : ℕ) :
    Except PyError (List ShotMarker) :=
  match filter_shots events team mid with
  | .error err => .error err
  | .ok shots => mapExcept shot_marker (shots.filter fun e => e.shot_type != some "Penalty")

/-! ### The pass network (`filter_pass_network`, source lines 161-210)

This path reads a differently-shaped event frame from `Sbopen().event`
(columns `team_name`, `type_name`, `outcome_name`, …) and the Sbopen lineup
frame. -/

/-- A row of the `Sbopen().event(match_id)` frame, restricted to the columns
the network builder reads. -/
structure SbEvent where
  id : ℕ
  team_name : String
  type_name : String
  minute : ℕ
  player_id : Option ℕ
  x : ℚ
  y : ℚ
  pass_recipient_id : Option ℕ
  outcome_name : Option String
deriving DecidableEq

/-- A row of the Sbopen lineup frame (`player_id`, `player_nickname`,
`jersey_number`). -/
structure LineupRow where
  player_id : ℕ
  player_nickname : String
  jersey_number : ℕ
deriving DecidableEq

/-- Source lines 167-178: filter the frame to the team, keep its `Pass`
rows with null `outcome_name`, compute `firstSub = subs.min()` from the
*team-filtered* frame, and keep the passes with `minute < firstSub`.
`Series.min()` of an empty series is `NaN` and `minute < NaN` is always
`False` in pandas, hence the `none => false` branch. -/
def filter_pass_network_passes (events : List SbEvent) (team : String) : List SbEvent :=
  let df := events.filter fun e => e.team_name == team
  let passes := df.filter fun e => e.type_name == "Pass"
  let successful := passes.filter fun e => e.outcome_name.isNone
  let firstSub := ((df.filter fun e => e.type_name == "Substitution").map (·.minute)).min?
  successful.filter fun e =>
    match firstSub with
    | some m => decide (e.minute < m)
    | none => false

/-- A retained pass after the two jersey merges (source lines 181-190):
the pass row joined with the passer's and the recipient's jersey numbers. -/
structure MergedPass where
  x : ℚ
  y : ℚ
  minute : ℕ
  passer : ℕ
  recipient : ℕ
deriving DecidableEq

/-- The two inner merges with the lineup's jersey data: a pass pairs with
every lineup row matching its `player_id` and every lineup row matching its
`pass_recipient_id`; passes whose passer or recipient has no lineup row are
dropped. -/
def merged_passes (events : List SbEvent) (team : String) (lineup : List LineupRow) :
    List MergedPass :=
  (filter_pass_network_passes events team).flatMap fun e =>
    (lineup.filter fun l => e.player_id == some l.player_id).flatMap fun lp =>
      (lineup.filter fun l => e.pass_recipient_id == some l.player_id).map fun lr =>
        { x := e.x, y := e.y, minute := e.minute,
          passer := lp.jersey_number, recipient := lr.jersey_number }

/-- The distinct passer jerseys (the index of `average_locations`). -/
def node_jerseys (mp : List MergedPass) : List ℕ :=
  (mp.map (·.passer)).dedup

/-- One node of the network: mean origin of the jersey's passes and their
count (`average_locations`, source lines 196-197). -/
structure NetworkNode where
  jersey : ℕ
  avg_x : ℚ
  avg_y : ℚ
  count : ℕ
deriving DecidableEq

/-- `average_locations`: group the merged passes by passer jersey; per
jersey, mean of the origin coordinates and count of passes. -/
def average_locations (mp : List MergedPass) : List NetworkNode :=
  (node_jerseys mp).map fun j =>
    let rows := mp.filter fun r => r.passer == j
    { jersey := j,
      avg_x := (rows.map (·.x)).sum / rows.length,
      avg_y := (rows.map (·.y)).sum / rows.length,
      count := rows.length }

/-- One edge of the network (`pass_between`, source lines 200-208). -/
structure NetworkEdge where
  passer : ℕ
  recipient : ℕ
  pass_count : ℕ
deriving DecidableEq

/-- `pass_between`: count passes per (passer, recipient) jersey pair, inner
merge with `average_locations` on the passer and (after re-indexing) on the
recipient — since `average_locations` is uniquely keyed by jersey, each
merge acts as a key-membership restriction — and finally keep the pairs
with `pass_count > 1`. -/
def pass_between (mp : List MergedPass) : List NetworkEdge :=
  let pairs := (mp.map fun r => (r.passer, r.recipient)).dedup
  let counted := pairs.map fun pr =>
    { passer := pr.1, recipient := pr.2,
      pass_count := (mp.filter fun r => r.passer == pr.1 && r.recipient == pr.2).length }
  let m1 := counted.filter fun e => (node_jerseys mp).contains e.passer
  let m2 := m1.filter fun e => (node_jerseys mp).contains e.recipient
  m2.filter fun e => decide (1 < e.pass_count)

/-- `filter_pass_network` (source lines 161-210): the pruned edge list and
the node table. -/
def filter_pass_network (events : List SbEvent) (team : String) (lineup : List LineupRow) :
    List NetworkEdge × List NetworkNode :=
  let mp := merged_passes events team lineup
  (pass_between mp, average_locations mp)

/-! ### The density estimator (`heatmap`, source lines 284-296)

`gaussian_kde([xs, ys])` builds a Gaussian KDE over the 2-D point cloud.
Its construction rejects an empty dataset with `ValueError`
(`dataset.size <= 1` on the 2×n array) and otherwise Cholesky-factorises
the sample covariance scaled by Scott's factor; for a single point the
`ddof=1` covariance is a division by zero (NaN entries) and for identical
or collinear points it is singular, so `scipy.linalg.cholesky` raises
`numpy.linalg.LinAlgError` in both cases.  The success/error behaviour is
decidable over ℚ; the surface itself is modelled over ℝ below. -/

/-- Sample mean of the x coordinates. -/
def mean_x_q (pts : List (ℚ × ℚ)) : ℚ := (pts.map (·.1)).sum / pts.length

/-- Sample mean of the y coordinates. -/
def mean_y_q (pts : List (ℚ × ℚ)) : ℚ := (pts.map (·.2)).sum / pts.length

/-- Sample variance of x (`ddof = 1`, as `np.cov` uses). -/
def s_xx (pts : List (ℚ × ℚ)) : ℚ :=
  (pts.map fun p => (p.1 - mean_x_q pts) ^ 2).sum / ((pts.length : ℚ) - 1)

/-- Sample variance of y (`ddof = 1`). -/
def s_yy (pts : List (ℚ × ℚ)) : ℚ :=
  (pts.map fun p => (p.2 - mean_y_q pts) ^ 2).sum / ((pts.length : ℚ) - 1)

/-- Sample covariance of x and y (`ddof = 1`). -/
def s_xy (pts : List (ℚ × ℚ)) : ℚ :=
  (pts.map fun p => (p.1 - mean_x_q pts) * (p.2 - mean_y_q pts)).sum / ((pts.length : ℚ) - 1)

/-- Whether the sample covariance matrix exists (at least two points, so
`ddof = 1` divides by a positive count) and is positive definite, i.e. the
Cholesky factorisation succeeds. -/
def cov_posdef (pts : List (ℚ × ℚ)) : Bool :=
  decide (2 ≤ pts.length) && decide (0 < s_xx pts)
    && decide (0 < s_xx pts * s_yy pts - s_xy pts ^ 2)

/-- All points of the cloud coincide. -/
def all_same (pts : List (ℚ × ℚ)) : Bool :=
  match pts with
  | [] => true
  | p :: rest => rest.all (· == p)

/-- The spec's degenerate point sets: fewer than 2 points, or all points
identical. -/
def degenerate (pts : List (ℚ × ℚ)) : Bool :=
  decide (pts.length < 2) || all_same pts

/-- The outcome of `gaussian_kde([xs, ys])` on the point cloud: `ValueError`
on an empty dataset, `LinAlgError` when the scaled sample covariance cannot
be Cholesky-factorised, success otherwise. -/
def gaussian_kde_check (pts : List (ℚ × ℚ)) : Except PyError Unit :=
  if pts.length * 2 ≤ 1 then .error .valueError
  else if cov_posdef pts then .ok () else .error .linAlgError

/-! The KDE surface in exact real arithmetic, following
`scipy.stats.gaussian_kde` with the default Scott bandwidth for `d = 2`:
kernel covariance `Σ = scott² · S` with `scott = n^(-1/6)` and `S` the
`ddof = 1` sample covariance, density at `p` equal to
`(1 / (n · 2π · √det Σ)) · Σᵢ exp(-½ (p-xᵢ)ᵀ Σ⁻¹ (p-xᵢ))`, evaluated on
the fixed `np.mgrid[0:120:100j, 0:80:100j]` grid. -/

/-- The number of data points, as a real. -/
noncomputable def kde_n (pts : List (ℚ × ℚ)) : ℝ := pts.length

/-- Sum over the data points of a real-valued term. -/
noncomputable def kde_sum (pts : List (ℚ × ℚ)) (f : ℚ × ℚ → ℝ) : ℝ := (pts.map f).sum

/-- Real sample mean of x. -/
noncomputable def kde_mean_x (pts : List (ℚ × ℚ)) : ℝ :=
  kde_sum pts (fun q => (q.1 : ℝ)) / kde_n pts

/-- Real sample mean of y. -/
noncomputable def kde_mean_y (pts : List (ℚ × ℚ)) : ℝ :=
  kde_sum pts (fun q => (q.2 : ℝ)) / kde_n pts

/-- Scott's bandwidth factor for 2-dimensional data, `n ^ (-1/6)`. -/
noncomputable def scotts_factor (pts : List (ℚ × ℚ)) : ℝ :=
  kde_n pts ^ (-(1 / 6 : ℝ))

/-- Kernel covariance entry xx: `scott² ·` sample variance of x (`ddof = 1`). -/
noncomputable def kde_cov_xx (pts : List (ℚ × ℚ)) : ℝ :=
  scotts_factor pts ^ 2 *
    (kde_sum pts (fun q => ((q.1 : ℝ) - kde_mean_x pts) ^ 2) / (kde_n pts - 1))

/-- Kernel covariance entry yy. -/
noncomputable def kde_cov_yy (pts : List (ℚ × ℚ)) : ℝ :=
  scotts_factor pts ^ 2 *
    (kde_sum pts (fun q => ((q.2 : ℝ) - kde_mean_y pts) ^ 2) / (kde_n pts - 1))

/-- Kernel covariance entry xy. -/
noncomputable def kde_cov_xy (pts : List (ℚ × ℚ)) : ℝ :=
  scotts_factor pts ^ 2 *
    (kde_sum pts (fun q => ((q.1 : ℝ) - kde_mean_x pts) * ((q.2 : ℝ) - kde_mean_y pts))
      / (kde_n pts - 1))

/-- Determinant of the kernel covariance. -/
noncomputable def kde_det (pts : List (ℚ × ℚ)) : ℝ :=
  kde_cov_xx pts * kde_cov_yy pts - kde_cov_xy pts ^ 2

/-- The Mahalanobis quadratic form `(p - q)ᵀ Σ⁻¹ (p - q)` of the kernel
covariance, via the explicit 2×2 inverse. -/
noncomputable def kde_quadform (pts : List (ℚ × ℚ)) (p : ℝ × ℝ) (q : ℚ × ℚ) : ℝ :=
  let dx := p.1 - (q.1 : ℝ)
  let dy := p.2 - (q.2 : ℝ)
  (kde_cov_yy pts * dx ^ 2 - 2 * kde_cov_xy pts * dx * dy + kde_cov_xx pts * dy ^ 2)
    / kde_det pts

/-- The KDE density at an evaluation point. -/
noncomputable def kde_density (pts : List (ℚ × ℚ)) (p : ℝ × ℝ) : ℝ :=
  kde_sum pts (fun q => Real.exp (-(1 / 2) * kde_quadform pts p q)) /
    (kde_n pts * (2 * Real.pi) * Real.sqrt (kde_det pts))

/-- The evaluation grid `np.mgrid[0:120:100j, 0:80:100j]`: 100 equispaced
samples across x ∈ [0, 120] and y ∈ [0, 80]. -/
noncomputable def grid_points : List (ℝ × ℝ) :=
  (List.range 100).flatMap fun i =>
    (List.range 100).map fun j =>
      ((120 * i / 99 : ℝ), (80 * j / 99 : ℝ))

/-- The density surface drawn by `heatmap`: the KDE density sampled on the
fixed grid. -/
noncomputable def kde_surface (pts : List (ℚ × ℚ)) : List ℝ :=
  grid_points.map fun p => kde_density pts p

/-! ### Global selection state and the heatmap entry point (C9)

`filter_heatmap(team, match_id)` reads the module-level
`selected_competition` (set by the sidebar) and loads the corresponding
event table through `load_events` — neither is a declared parameter. -/

/-- The module-level state an analytic call executes under: the sidebar's
`selected_competition` and the two database event tables. -/
structure Env where
  selected_competition : String
  euro_all_events : List Event
  copa_america_all_events : List Event
deriving DecidableEq

/-- `load_events` (source lines 52-58): the event table of the currently
selected competition. -/
def load_events (env : Env) : List Event :=
  if env.selected_competition == "UEFA Euro" then env.euro_all_events
  else env.copa_america_all_events

/-- `filter_heatmap` as invoked at runtime: its declared parameters are
`team` and `match_id`; the event table comes from the ambient state. -/
def filter_heatmap (env : Env) (team : String) (mid : ℕ) : Except PyError (List Event) :=
  filter_heatmap_rows (load_events env) team mid

/-! ### The lineup starting-XI rule (source lines 561-573) -/

/-- One parsed element of a lineup row's `positions` list.  `start_time`
and `end_time` model the dictionary's `"from"` and `"to"` keys
(`d.get("from")` is `None` when the key is absent). -/
structure PositionEntry where
  position : String
  start_time : Option String
  end_time : Option String
deriving DecidableEq

/-- The classifier applied to a lineup row's parsed `positions` list:
`any(d.get("from") == "00:00" for d in positions)`. -/
def is_starting (positions : List PositionEntry) : Bool :=
  positions.any fun d => d.start_time == some "00:00"

/-- A row of the competition lineup tables, with `positions` already
parsed (the source parses the serialized column with `ast.literal_eval`
at each use site). -/
structure AppLineupRow where
  match_id : ℕ
  country : String
  player_name : String
  jersey_number : ℕ
  positions : List PositionEntry
deriving DecidableEq

/-- The starting-XI selection (source lines 562-566). -/
def starting_players (lineup : List AppLineupRow) : List AppLineupRow :=
  lineup.filter fun r => is_starting r.positions

/-- The substitutes selection (source lines 569-573). -/
def substitute_players (lineup : List AppLineupRow) : List AppLineupRow :=
  lineup.filter fun r => !is_starting r.positions

/-! ### Statement-side definitions taken from the specification's words -/

/-- The set claim C1 compares against: all passes of type `Pass` by the
player in the match whose `pass_type` is not `Throw-in`. -/
def c1_all_passes (events : List Event) (player : String) (mid : ℕ) : List Event :=
  events.filter fun e =>
    e.type == "Pass" && e.match_id == mid && e.player == player
      && e.pass_type != some "Throw-in"

/-- The amended C1 set: additionally both location columns must be present
(the source drops null-location rows before classifying). -/
def c1_amended_set (events : List Event) (player : String) (mid : ℕ) : List Event :=
  events.filter fun e =>
    e.type == "Pass" && e.match_id == mid && e.player == player
      && e.pass_type != some "Throw-in"
      && e.location != Field.null && e.pass_end_location != Field.null

/-- The pass restriction claim C2 describes: `first_substitution_minute` is
the minimum minute over all `Substitution` events of the match (∞ — i.e. no
bound — when there is none), and the qualifying passes are the team's
passes with absent outcome and minute strictly below it. -/
def c2_claim_passes (events : List SbEvent) (team : String) : List SbEvent :=
  let firstSub := ((events.filter fun e => e.type_name == "Substitution").map (·.minute)).min?
  events.filter fun e =>
    e.team_name == team && e.type_name == "Pass" && e.outcome_name.isNone &&
      (match firstSub with
       | some m => decide (e.minute < m)
       | none => true)

/-- The amended C2 restriction: the minimum is taken over the *team's*
`Substitution` events only, and when the team has none the `minute < NaN`
comparison retains no pass at all. -/
def c2_amended_passes (events : List SbEvent) (team : String) : List SbEvent :=
  let firstSub := ((events.filter fun e =>
    e.team_name == team && e.type_name == "Substitution").map (·.minute)).min?
  events.filter fun e =>
    e.team_name == team && e.type_name == "Pass" && e.outcome_name.isNone &&
      (match firstSub with
       | some m => decide (e.minute < m)
       | none => false)

/-- The identifiers of the non-throw-in, location-present pass set the pass
classifier works with, restricted to the team — the comparison set of
claim C10. -/
def c10_classifier_ids (events : List Event) (team : String) (mid : ℕ) : List ℕ :=
  (events.filter fun e =>
    e.type == "Pass" && e.match_id == mid && e.team == team
      && e.pass_type != some "Throw-in"
      && e.location != Field.null && e.pass_end_location != Field.null).map (·.id)

/-- The identifiers of all `Pass` rows of the team in the match, with no
pass-type or location restriction — what `filter_heatmap` selects. -/
def c10_team_pass_ids (events : List Event) (team : String) (mid : ℕ) : List ℕ :=
  (events.filter fun e =>
    e.match_id == mid && e.type == "Pass" && e.team == team).map (·.id)

/-! ### Helper lemmas -/

theorem mapExcept_ok_forall₂ {α β : Type} {f : α → Except PyError β} :
    ∀ {l : List α} {l' : List β}, mapExcept f l = .ok l' →
      List.Forall₂ (fun a b => f a = .ok b) l l' := by
  intro l
  induction l with
  | nil =>
    intro l' h
    simp only [mapExcept, Except.ok.injEq] at h
    subst h
    exact List.Forall₂.nil
  | cons a t ih =>
    intro l' h
    cases hfa : f a with
    | error err => simp [mapExcept, hfa] at h
    | ok b =>
      cases hmt : mapExcept f t with
      | error err => simp [mapExcept, hfa, hmt] at h
      | ok bs =>
        simp only [mapExcept, hfa, hmt, Except.ok.injEq] at h
        subst h
        exact List.Forall₂.cons hfa (ih hmt)

theorem forall₂_filter_map {α β γ : Type} {R : α → β → Prop} {p : α → Bool} {q : β → Bool}
    {f : α → γ} {g : β → γ}
    (het : ∀ a b, R a b → p a = q b)
    (hm : ∀ a b, R a b → f a = g b) :
    ∀ {l₁ : List α} {l₂ : List β}, List.Forall₂ R l₁ l₂ →
      (l₁.filter p).map f = (l₂.filter q).map g := by
  intro l₁ l₂ hf
  induction hf with
  | nil => simp
  | @cons a b t₁ t₂ hab _ ih =>
    rw [List.filter_cons, List.filter_cons, ← het a b hab]
    cases hpa : p a
    · simpa using ih
    · simp [ih, hm a b hab]

theorem forall₂_mem_rev {α β : Type} {R : α → β → Prop} :
    ∀ {l₁ : List α} {l₂ : List β}, List.Forall₂ R l₁ l₂ →
      ∀ b ∈ l₂, ∃ a ∈ l₁, R a b := by
  intro l₁ l₂ hf
  induction hf with
  | nil => simp
  | @cons a b t₁ t₂ hab _ ih =>
    intro c hc
    rcases List.mem_cons.1 hc with h | h
    · exact ⟨a, List.mem_cons_self a t₁, h ▸ hab⟩
    · rcases ih c h with ⟨a', ha', hr⟩
      exact ⟨a', List.mem_cons_of_mem a ha', hr⟩

theorem filter_partition_perm {α : Type} (p : α → Bool) (l : List α) :
    ((l.filter p) ++ (l.filter fun a => !(p a))).Perm l := by
  induction l with
  | nil => simp
  | cons a t ih =>
    by_cases h : p a
    · simpa [h] using ih.cons a
    · simp only [List.filter_cons, h]
      simpa using (List.perm_middle.trans (ih.cons a))

theorem normalize_location_ok_null_iff {f g : Field} (h : normalize_location f = .ok g) :
    (g = Field.null ↔ f = Field.null) := by
  cases f with
  | null =>
    simp only [normalize_location, Except.ok.injEq] at h
    subst h; simp
  | str s =>
    cases hle : literal_eval s with
    | none => simp [normalize_location, hle] at h
    | some xs =>
      simp only [normalize_location, hle, Except.ok.injEq] at h
      subst h; simp
  | list xs =>
    simp only [normalize_location, Except.ok.injEq] at h
    subst h; simp

theorem normalize_event_ok {a b : Event} (h : normalize_event a = .ok b) :
    b.id = a.id ∧ b.match_id = a.match_id ∧ b.team = a.team ∧ b.player = a.player
      ∧ b.type = a.type ∧ b.minute = a.minute ∧ b.pass_type = a.pass_type
      ∧ b.pass_outcome = a.pass_outcome
      ∧ (b.location = Field.null ↔ a.location = Field.null)
      ∧ (b.pass_end_location = Field.null ↔ a.pass_end_location = Field.null) := by
  unfold normalize_event at h
  cases hl : normalize_location a.location with
  | error err => rw [hl] at h; exact absurd h (by simp)
  | ok l =>
    cases hp : normalize_location a.pass_end_location with
    | error err => rw [hl, hp] at h; exact absurd h (by simp)
    | ok pel =>
      rw [hl, hp] at h
      simp only [Except.ok.injEq] at h
      subst h
      refine ⟨rfl, rfl, rfl, rfl, rfl, rfl, rfl, rfl, ?_, ?_⟩
      · exact normalize_location_ok_null_iff hl
      · exact normalize_location_ok_null_iff hp

theorem normalize_event_loc_ok {a b : Event} (h : normalize_event_loc a = .ok b) :
    b.id = a.id ∧ b.match_id = a.match_id ∧ b.team = a.team ∧ b.player = a.player
      ∧ b.type = a.type ∧ b.minute = a.minute ∧ b.pass_type = a.pass_type
      ∧ b.pass_outcome = a.pass_outcome ∧ b.shot_type = a.shot_type
      ∧ b.shot_outcome = a.shot_outcome
      ∧ b.shot_statsbomb_xg = a.shot_statsbomb_xg := by
  unfold normalize_event_loc at h
  cases hl : normalize_location a.location with
  | error err => rw [hl] at h; exact absurd h (by simp)
  | ok l =>
    rw [hl] at h
    simp only [Except.ok.injEq] at h
    subst h
    exact ⟨rfl, rfl, rfl, rfl, rfl, rfl, rfl, rfl, rfl, rfl, rfl⟩

theorem load_passes_ok {events : List Event} {mid : ℕ} {qs : List Event}
    (h : load_passes events mid = .ok qs) :
    ∃ ns, mapExcept normalize_event
        (events.filter fun e => e.type == "Pass" && e.match_id == mid) = .ok ns
      ∧ qs = ns.filter fun e =>
          e.location != Field.null && e.pass_end_location != Field.null := by
  cases hm : mapExcept normalize_event
      (events.filter fun e => e.type == "Pass" && e.match_id == mid) with
  | error err => simp [load_passes, hm] at h
  | ok ns =>
    refine ⟨ns, rfl, ?_⟩
    simp only [load_passes, hm] at h
    split at h
    · simp only [Except.ok.injEq] at h
      exact h.symm
    · exact absurd h (by simp)

theorem filter_passes_ok_parts {player : String} {mid : ℕ} {events s u : List Event}
    (h : filter_passes player mid events = .ok (s, u)) :
    ∃ qs, load_passes events mid = .ok qs
      ∧ s = ((qs.filter fun e => e.pass_type != some "Throw-in").filter
              fun e => e.player == player).filter (fun e => e.pass_outcome.isNone)
      ∧ u = ((qs.filter fun e => e.pass_type != some "Throw-in").filter
              fun e => e.player == player).filter (fun e => e.pass_outcome.isSome) := by
  cases hl : load_passes events mid with
  | error err => simp [filter_passes, hl] at h
  | ok qs =>
    refine ⟨qs, rfl, ?_, ?_⟩ <;>
      · simp only [filter_passes, hl, Except.ok.injEq, Prod.mk.injEq] at h
        simp [h.1.symm, h.2.symm]

theorem field_bne_null_congr {x y : Field} (h : x = Field.null ↔ y = Field.null) :
    (x != Field.null) = (y != Field.null) := by
  by_cases hx : x = Field.null
  · rw [hx, h.1 hx]
  · have hy : ¬y = Field.null := fun hy => hx (h.2 hy)
    have h1 : (x != Field.null) = true := by simp [bne_iff_ne]; exact hx
    have h2 : (y != Field.null) = true := by simp [bne_iff_ne]; exact hy
    rw [h1, h2]

/-- The event identifiers classified by `filter_passes` are, up to order,
exactly the identifiers of the player's non-throw-in passes of the match
whose two location columns are present. -/
theorem filter_passes_ok_ids {player : String} {mid : ℕ} {events s u : List Event}
    (h : filter_passes player mid events = .ok (s, u)) :
    ((s ++ u).map Event.id).Perm ((c1_amended_set events player mid).map Event.id) := by
  obtain ⟨qs, hqs, hs, hu⟩ := filter_passes_ok_parts h
  obtain ⟨ns, hns, hq⟩ := load_passes_ok hqs
  have hperm : (s ++ u).Perm ((qs.filter fun e => e.pass_type != some "Throw-in").filter
      fun e => e.player == player) := by
    rw [hs, hu]
    have hiso : (fun e : Event => e.pass_outcome.isSome)
        = fun e : Event => !(e.pass_outcome.isNone) := by
      funext e; cases e.pass_outcome <;> rfl
    rw [hiso]
    exact filter_partition_perm _ _
  have hpp2 : ((qs.filter fun e => e.pass_type != some "Throw-in").filter
        fun e => e.player == player)
      = ns.filter fun e =>
        (e.player == player) && ((e.pass_type != some "Throw-in")
          && (e.location != Field.null && e.pass_end_location != Field.null)) := by
    rw [hq, List.filter_filter, List.filter_filter]
    refine List.filter_congr ?_
    intro a _
    cases a.player == player <;> cases a.pass_type != some "Throw-in" <;>
      cases a.location != Field.null <;> cases a.pass_end_location != Field.null <;> rfl
  have htrans : (ns.filter fun e =>
        (e.player == player) && ((e.pass_type != some "Throw-in")
          && (e.location != Field.null && e.pass_end_location != Field.null))).map Event.id
      = ((events.filter fun e => e.type == "Pass" && e.match_id == mid).filter fun e =>
        (e.player == player) && ((e.pass_type != some "Throw-in")
          && (e.location != Field.null && e.pass_end_location != Field.null))).map Event.id := by
    refine (forall₂_filter_map ?_ ?_ (mapExcept_ok_forall₂ hns)).symm
    · intro a b hab
      obtain ⟨_, _, _, hpl, _, _, hpt, _, hl, hp⟩ := normalize_event_ok hab
      rw [hpl, hpt, field_bne_null_congr hl, field_bne_null_congr hp]
    · intro a b hab
      exact (normalize_event_ok hab).1.symm
  have hcomb : ((events.filter fun e => e.type == "Pass" && e.match_id == mid).filter fun e =>
        (e.player == player) && ((e.pass_type != some "Throw-in")
          && (e.location != Field.null && e.pass_end_location != Field.null)))
      = c1_amended_set events player mid := by
    rw [List.filter_filter]
    unfold c1_amended_set
    refine List.filter_congr ?_
    intro a _
    cases a.type == "Pass" <;> cases a.match_id == mid <;> cases a.player == player <;>
      cases a.pass_type != some "Throw-in" <;> cases a.location != Field.null <;>
      cases a.pass_end_location != Field.null <;> rfl
  have hfin := hperm.map Event.id
  rw [hpp2, htrans, hcomb] at hfin
  exact hfin

theorem forall₂_map_eq {α β γ : Type} {R : α → β → Prop} {f : α → γ} {g : β → γ}
    (hm : ∀ a b, R a b → f a = g b) :
    ∀ {l₁ : List α} {l₂ : List β}, List.Forall₂ R l₁ l₂ → l₁.map f = l₂.map g := by
  intro l₁ l₂ hf
  induction hf with
  | nil => rfl
  | @cons a b t₁ t₂ hab _ ih => simp [hm a b hab, ih]

theorem filter_heatmap_rows_ok {events : List Event} {team : String} {mid : ℕ}
    {rows : List Event} (h : filter_heatmap_rows events team mid = .ok rows) :
    mapExcept normalize_event_loc ((events.filter fun e => e.match_id == mid).filter
      fun e => e.type == "Pass" && e.team == team) = .ok rows := by
  cases hm : mapExcept normalize_event_loc ((events.filter fun e => e.match_id == mid).filter
      fun e => e.type == "Pass" && e.team == team) with
  | error err =>
    simp only [filter_heatmap_rows, hm] at h
    exact absurd h (by simp)
  | ok tp =>
    simp only [filter_heatmap_rows, hm] at h
    split at h
    · simp only [Except.ok.injEq] at h
      rw [h]
    · exact absurd h (by simp)

/-! ### Concrete rows used by the counterexamples and witnesses -/

/-- A `Pass` row with both location columns null. -/
def c1_null_event : Event :=
  { id := 10, match_id := 1, team := "A", player := "P", type := "Pass", minute := 3,
    pass_type := none, pass_outcome := none, location := Field.null,
    pass_end_location := Field.null, shot_type := none, shot_outcome := none,
    shot_statsbomb_xg := 0 }

/-- A completed pass with native location lists. -/
def c1_ok_event : Event :=
  { id := 20, match_id := 1, team := "A", player := "P", type := "Pass", minute := 4,
    pass_type := none, pass_outcome := none, location := Field.list [10, 20],
    pass_end_location := Field.list [30, 40], shot_type := none, shot_outcome := none,
    shot_statsbomb_xg := 0 }

/-- An incomplete pass with native location lists. -/
def c1_incomplete_event : Event :=
  { id := 21, match_id := 1, team := "A", player := "P", type := "Pass", minute := 5,
    pass_type := none, pass_outcome := some "Incomplete", location := Field.list [50, 60],
    pass_end_location := Field.list [5, 6], shot_type := none, shot_outcome := none,
    shot_statsbomb_xg := 0 }

/-- A regular completed pass with a present location, used by C10 and C9. -/
def c10_plain_event : Event :=
  { id := 30, match_id := 1, team := "A", player := "P", type := "Pass", minute := 6,
    pass_type := none, pass_outcome := none, location := Field.list [10, 20],
    pass_end_location := Field.list [30, 40], shot_type := none, shot_outcome := none,
    shot_statsbomb_xg := 0 }

/-- A throw-in pass with a null end location: selected by the heatmap
filter, excluded by the pass classifier. -/
def c10_throwin_event : Event :=
  { id := 31, match_id := 1, team := "A", player := "Q", type := "Pass", minute := 7,
    pass_type := some "Throw-in", pass_outcome := none, location := Field.list [1, 2],
    pass_end_location := Field.null, shot_type := none, shot_outcome := none,
    shot_statsbomb_xg := 0 }

/-- A completed pass used by the C9 environments. -/
def c9_pass_event : Event :=
  { id := 40, match_id := 1, team := "A", player := "P", type := "Pass", minute := 8,
    pass_type := none, pass_outcome := none, location := Field.list [10, 20],
    pass_end_location := Field.list [30, 40], shot_type := none, shot_outcome := none,
    shot_statsbomb_xg := 0 }

/-- UEFA Euro selected, one pass in the Euro table. -/
def c9_env_a : Env :=
  { selected_competition := "UEFA Euro", euro_all_events := [c9_pass_event],
    copa_america_all_events := [] }

/-- UEFA Euro selected, empty tables. -/
def c9_env_b : Env :=
  { selected_competition := "UEFA Euro", euro_all_events := [],
    copa_america_all_events := [] }

/-- UEFA Euro selected, empty Euro table but a non-empty Copa table: a state
differing from `c9_env_b` that loads the same event table. -/
def c9_env_c : Env :=
  { selected_competition := "UEFA Euro", euro_all_events := [],
    copa_america_all_events := [c9_pass_event] }

/-! ### Claims C1, C9, C10 -/

/-- Claim C1, as stated, is false: `load_passes` drops passes whose
`location` or `pass_end_location` is null before the classifier splits
them, so the two returned sequences need not cover all non-throw-in passes
of type `Pass` by the player — here a null-location pass is classified into
neither sequence. -/
theorem c1_counterexample :
    ¬ (∀ (events : List Event) (player : String) (mid : ℕ) (s u : List Event),
        filter_passes player mid events = .ok (s, u) →
        ((s ++ u).map Event.id).Perm ((c1_all_passes events player mid).map Event.id)) := by
  intro hclaim
  have h := hclaim [c1_null_event] "P" 1 [] [] (by rfl)
  rw [show c1_all_passes [c1_null_event] "P" 1 = [c1_null_event] from rfl] at h
  simpa using h.symm.eq_nil

/-- Claim C1 (amended: the union ranges over the non-throw-in passes whose
two location columns are present): the classifier splits the player's
retained passes into the outcome-absent and outcome-present sequences, and
together they are exactly the player's non-throw-in, location-present
passes of the match. -/
theorem c1_classifier_partition (events : List Event) (player : String) (mid : ℕ)
    (s u : List Event) (h : filter_passes player mid events = .ok (s, u)) :
    (∀ e ∈ s, e.pass_outcome = none) ∧ (∀ e ∈ u, e.pass_outcome ≠ none)
      ∧ ((s ++ u).map Event.id).Perm ((c1_amended_set events player mid).map Event.id) := by
  obtain ⟨qs, hqs, hs, hu⟩ := filter_passes_ok_parts h
  refine ⟨?_, ?_, filter_passes_ok_ids h⟩
  · intro e he
    rw [hs] at he
    exact Option.isNone_iff_eq_none.1 (List.mem_filter.1 he).2
  · intro e he hn
    rw [hu] at he
    have h2 := (List.mem_filter.1 he).2
    rw [hn] at h2
    simp at h2

theorem c1_witness :
    filter_passes "P" 1 [c1_ok_event, c1_incomplete_event]
        = .ok ([c1_ok_event], [c1_incomplete_event])
      ∧ ((∀ e ∈ [c1_ok_event], e.pass_outcome = none)
        ∧ (∀ e ∈ [c1_incomplete_event], e.pass_outcome ≠ none)
        ∧ (([c1_ok_event] ++ [c1_incomplete_event]).map Event.id).Perm
            ((c1_amended_set [c1_ok_event, c1_incomplete_event] "P" 1).map Event.id)) :=
  ⟨rfl, c1_classifier_partition [c1_ok_event, c1_incomplete_event] "P" 1
    [c1_ok_event] [c1_incomplete_event] rfl⟩

/-- Claim C9, as stated, is false: `filter_heatmap` is not a function of
its declared inputs `(team, match_id)` alone — it reads the module-level
selected competition and the loaded event table, and two invocations with
identical arguments under different ambient states return different
results. -/
theorem c9_counterexample :
    ¬ (∀ (env₁ env₂ : Env) (team : String) (mid : ℕ),
        filter_heatmap env₁ team mid = filter_heatmap env₂ team mid) := by
  intro hclaim
  have h := hclaim c9_env_a c9_env_b "A" 1
  rw [show filter_heatmap c9_env_a "A" 1 = .ok [c9_pass_event] from rfl,
      show filter_heatmap c9_env_b "A" 1 = .ok [] from rfl] at h
  simp at h

/-- Claim C9 (amended): each analytic call is deterministic, but only as a
function of its declared inputs *plus* the ambient selection state — the
heatmap filter depends on that state exactly through the loaded event
table, so any two states loading the same table give identical results. -/
theorem c9_env_dependency (env₁ env₂ : Env) (team : String) (mid : ℕ)
    (h : load_events env₁ = load_events env₂) :
    filter_heatmap env₁ team mid = filter_heatmap env₂ team mid := by
  unfold filter_heatmap
  rw [h]

theorem c9_witness :
    load_events c9_env_c = load_events c9_env_b
      ∧ filter_heatmap c9_env_c "A" 1 = filter_heatmap c9_env_b "A" 1 :=
  ⟨rfl, c9_env_dependency c9_env_c c9_env_b "A" 1 rfl⟩

/-- Claim C10, as stated, is false in its strictness part: when the team
took no throw-ins and every pass has both locations present, the heatmap
input set coincides with the classifier's pass set — it is not *strictly*
larger. -/
theorem c10_counterexample :
    ¬ (∀ (events : List Event) (team : String) (mid : ℕ) (rows : List Event),
        filter_heatmap_rows events team mid = .ok rows →
        ((∀ i ∈ c10_classifier_ids events team mid, i ∈ rows.map Event.id)
          ∧ ∃ i ∈ rows.map Event.id, i ∉ c10_classifier_ids events team mid)) := by
  intro hclaim
  obtain ⟨-, i, hi, hnot⟩ := hclaim [c10_plain_event] "A" 1 [c10_plain_event] (by rfl)
  rw [show ([c10_plain_event].map Event.id) = [30] from rfl] at hi
  rw [show c10_classifier_ids [c10_plain_event] "A" 1 = [30] from rfl] at hnot
  simp at hi
  rw [hi] at hnot
  simp at hnot

/-- Claim C10 (amended): the heatmap filter keeps every `Pass` row of the
team in the match — throw-ins included, with no location-presence filter —
so its row identifiers are exactly the team's pass identifiers and contain
the classifier's non-throw-in, location-present pass identifiers; the
containment is strict only when such extra rows exist. -/
theorem c10_heatmap_superset (events : List Event) (team : String) (mid : ℕ)
    (rows : List Event) (h : filter_heatmap_rows events team mid = .ok rows) :
    rows.map Event.id = c10_team_pass_ids events team mid
      ∧ ∀ i ∈ c10_classifier_ids events team mid, i ∈ rows.map Event.id := by
  have hforall := mapExcept_ok_forall₂ (filter_heatmap_rows_ok h)
  have hmap : ((events.filter fun e => e.match_id == mid).filter
        fun e => e.type == "Pass" && e.team == team).map Event.id = rows.map Event.id :=
    forall₂_map_eq (f := Event.id) (g := Event.id)
      (fun a b hab => (normalize_event_loc_ok hab).1.symm) hforall
  have hweak : ((events.filter fun e => e.match_id == mid).filter
        fun e => e.type == "Pass" && e.team == team).map Event.id
      = c10_team_pass_ids events team mid := by
    rw [List.filter_filter]
    unfold c10_team_pass_ids
    refine congrArg (List.map Event.id) (List.filter_congr ?_)
    intro a _
    cases a.match_id == mid <;> cases a.type == "Pass" <;> cases a.team == team <;> rfl
  refine ⟨by rw [← hmap, hweak], ?_⟩
  intro i hi
  rw [← hmap]
  unfold c10_classifier_ids at hi
  obtain ⟨e, he, rfl⟩ := List.mem_map.1 hi
  have hmem := (List.mem_filter.1 he).1
  have hpred := (List.mem_filter.1 he).2
  simp only [Bool.and_eq_true] at hpred
  refine List.mem_map.2 ⟨e, ?_, rfl⟩
  refine List.mem_filter.2 ⟨List.mem_filter.2 ⟨hmem, hpred.1.1.1.1.2⟩, ?_⟩
  rw [Bool.and_eq_true]
  exact ⟨hpred.1.1.1.1.1, hpred.1.1.1.2⟩

theorem c10_witness :
    filter_heatmap_rows [c10_plain_event, c10_throwin_event] "A" 1
        = .ok [c10_plain_event, c10_throwin_event]
      ∧ ([c10_plain_event, c10_throwin_event].map Event.id
          = c10_team_pass_ids [c10_plain_event, c10_throwin_event] "A" 1
        ∧ ∀ i ∈ c10_classifier_ids [c10_plain_event, c10_throwin_event] "A" 1,
            i ∈ [c10_plain_event, c10_throwin_event].map Event.id) :=
  ⟨rfl, c10_heatmap_superset [c10_plain_event, c10_throwin_event] "A" 1
    [c10_plain_event, c10_throwin_event] rfl⟩

/-! ### Claim C2 -/

/-- A successful pass by team A at minute 5. -/
def c2_pass_event : SbEvent :=
  { id := 1, team_name := "A", type_name := "Pass", minute := 5, player_id := some 1,
    x := 10, y := 10, pass_recipient_id := some 2, outcome_name := none }

/-- A substitution by the *opposing* team B at minute 10. -/
def c2_opp_sub_event : SbEvent :=
  { id := 2, team_name := "B", type_name := "Substitution", minute := 10, player_id := none,
    x := 0, y := 0, pass_recipient_id := none, outcome_name := none }

/-- A match where only the opponent substitutes. -/
def c2_events : List SbEvent := [c2_pass_event, c2_opp_sub_event]

/-- Claim C2, as stated, is false: the source computes `subs.min()` from the
frame *already filtered to the team*, not from all `Substitution` events of
the match, and an empty team-substitution series gives `NaN`, under which
`minute < NaN` retains nothing.  Here the opponent substitutes at minute 10
and team A's minute-5 pass should qualify per the claim, but the code
retains no pass. -/
theorem c2_counterexample :
    filter_pass_network_passes c2_events "A" ≠ c2_claim_passes c2_events "A" := by
  rw [show filter_pass_network_passes c2_events "A" = [] from rfl,
      show c2_claim_passes c2_events "A" = [c2_pass_event] from rfl]
  simp

/-- Claim C2 (amended): `first_substitution_minute` is the minimum minute
over the *team's* `Substitution` events, the aggregated passes are exactly
the team's passes with absent outcome and minute strictly below it, and
when the team has no substitution at all no pass qualifies (the pandas
`minute < NaN` comparison is uniformly false). -/
theorem c2_stable_window (events : List SbEvent) (team : String) :
    filter_pass_network_passes events team = c2_amended_passes events team
      ∧ ((events.filter fun e => e.team_name == team && e.type_name == "Substitution") = []
          → filter_pass_network_passes events team = []) := by
  have hsubs : ((events.filter fun e => e.team_name == team).filter
        fun e => e.type_name == "Substitution")
      = events.filter fun e => e.team_name == team && e.type_name == "Substitution" := by
    rw [List.filter_filter]
    refine List.filter_congr ?_
    intro a _
    cases a.team_name == team <;> cases a.type_name == "Substitution" <;> rfl
  have hmain : filter_pass_network_passes events team = c2_amended_passes events team := by
    unfold filter_pass_network_passes c2_amended_passes
    dsimp only
    rw [hsubs]
    generalize ((events.filter fun e =>
      e.team_name == team && e.type_name == "Substitution").map (·.minute)).min? = m
    rw [List.filter_filter, List.filter_filter, List.filter_filter]
    refine List.filter_congr ?_
    intro a _
    cases m with
    | none =>
      cases a.team_name == team <;> cases a.type_name == "Pass" <;>
        cases a.outcome_name.isNone <;> rfl
    | some mm =>
      dsimp only
      cases a.team_name == team <;> cases a.type_name == "Pass" <;>
        cases a.outcome_name.isNone <;> cases decide (a.minute < mm) <;> rfl
  refine ⟨hmain, ?_⟩
  intro hno
  rw [hmain]
  unfold c2_amended_passes
  rw [hno]
  simp

theorem c2_witness :
    filter_pass_network_passes c2_events "A" = c2_amended_passes c2_events "A"
      ∧ filter_pass_network_passes c2_events "A" = [] :=
  ⟨(c2_stable_window c2_events "A").1, (c2_stable_window c2_events "A").2 (by rfl)⟩

/-! ### Claim C3 -/

/-- Claim C3: every edge of a built pass network has `pass_count > 1`, and
both its passer jersey and its recipient jersey have a node in the node
table. -/
theorem c3_edge_invariant (events : List SbEvent) (team : String) (lineup : List LineupRow)
    (e : NetworkEdge) (he : e ∈ (filter_pass_network events team lineup).1) :
    1 < e.pass_count
      ∧ (∃ nd ∈ (filter_pass_network events team lineup).2, nd.jersey = e.passer)
      ∧ (∃ nd ∈ (filter_pass_network events team lineup).2, nd.jersey = e.recipient) := by
  unfold filter_pass_network at he ⊢
  dsimp only at he ⊢
  unfold pass_between at he
  dsimp only at he
  have h1 := List.mem_filter.1 he
  have h2 := List.mem_filter.1 h1.1
  have h3 := List.mem_filter.1 h2.1
  have hp : e.passer ∈ node_jerseys (merged_passes events team lineup) := by
    simpa using h3.2
  have hr : e.recipient ∈ node_jerseys (merged_passes events team lineup) := by
    simpa using h2.2
  refine ⟨of_decide_eq_true h1.2, ?_, ?_⟩
  · exact ⟨_, List.mem_map.2 ⟨e.passer, hp, rfl⟩, rfl⟩
  · exact ⟨_, List.mem_map.2 ⟨e.recipient, hr, rfl⟩, rfl⟩

/-- The Sbopen lineup used by the C3 scenario: player 1 wears jersey 7,
player 2 wears jersey 9. -/
def c3_lineup : List LineupRow := [⟨1, "Seven", 7⟩, ⟨2, "Nine", 9⟩]

/-- The C3 scenario: passes 7→9 at minutes 10 and 20, pass 9→7 at minute 5,
and a substitution by the team at minute 30. -/
def c3_events : List SbEvent :=
  [⟨1, "T", "Pass", 10, some 1, 10, 10, some 2, none⟩,
   ⟨2, "T", "Pass", 20, some 1, 20, 20, some 2, none⟩,
   ⟨3, "T", "Pass", 5, some 2, 50, 50, some 1, none⟩,
   ⟨4, "T", "Substitution", 30, none, 0, 0, none, none⟩]

theorem c3_witness :
    (⟨7, 9, 2⟩ : NetworkEdge) ∈ (filter_pass_network c3_events "T" c3_lineup).1
      ∧ (1 < (⟨7, 9, 2⟩ : NetworkEdge).pass_count
        ∧ (∃ nd ∈ (filter_pass_network c3_events "T" c3_lineup).2,
            nd.jersey = (⟨7, 9, 2⟩ : NetworkEdge).passer)
        ∧ (∃ nd ∈ (filter_pass_network c3_events "T" c3_lineup).2,
            nd.jersey = (⟨7, 9, 2⟩ : NetworkEdge).recipient)) :=
  ⟨by decide, c3_edge_invariant c3_events "T" c3_lineup ⟨7, 9, 2⟩ (by decide)⟩

/-! ### Claim C4 -/

/-- Whether an embedded Python call raised. -/
def isError : Except PyError α → Bool
  | .error _ => true
  | .ok _ => false

theorem cov_posdef_all_same {pts : List (ℚ × ℚ)} (h : all_same pts = true) :
    cov_posdef pts = false := by
  cases pts with
  | nil => rfl
  | cons p rest =>
    by_cases hlen : 2 ≤ (p :: rest).length
    case neg =>
      have hd : (decide (2 ≤ (p :: rest).length)) = false := decide_eq_false hlen
      unfold cov_posdef
      rw [hd]
      rfl
    case pos =>
      have hall : ∀ q ∈ p :: rest, q = p := by
        intro q hq
        rcases List.mem_cons.1 hq with rfl | hq'
        · rfl
        · exact eq_of_beq ((List.all_eq_true.1 h) q hq')
      have hn : (((p :: rest).length : ℚ)) ≠ 0 := by
        exact_mod_cast (Nat.cast_ne_zero (R := ℚ)).2 (by simp)
      have hmx : mean_x_q (p :: rest) = p.1 := by
        unfold mean_x_q
        have hx : ((p :: rest).map (·.1))
            = List.replicate ((p :: rest).map (·.1)).length p.1 := by
          refine List.eq_replicate_of_mem ?_
          intro b hb
          obtain ⟨q, hq, rfl⟩ := List.mem_map.1 hb
          rw [hall q hq]
        rw [hx, List.sum_replicate, List.length_map, nsmul_eq_mul]
        field_simp
      have hsxx : s_xx (p :: rest) = 0 := by
        unfold s_xx
        have hz : ((p :: rest).map fun q => (q.1 - mean_x_q (p :: rest)) ^ 2)
            = List.replicate ((p :: rest).map fun q =>
                (q.1 - mean_x_q (p :: rest)) ^ 2).length 0 := by
          refine List.eq_replicate_of_mem ?_
          intro b hb
          obtain ⟨q, hq, rfl⟩ := List.mem_map.1 hb
          rw [hall q hq, hmx]
          ring
        rw [hz, List.sum_replicate, smul_zero, zero_div]
      simp [cov_posdef, hsxx]

/-- Claim C4, as stated, is false: the density estimator on the degenerate
single-point input `[(60, 40)]` fails with numpy's `LinAlgError` (from the
Cholesky factorisation of the undefined `ddof = 1` covariance), not with an
`InsufficientDataError` — no such error class exists in the source. -/
theorem c4_counterexample :
    ¬ (∀ pts : List (ℚ × ℚ), degenerate pts = true →
        gaussian_kde_check pts = .error PyError.insufficientDataError) := by
  intro hclaim
  have h := hclaim [((60 : ℚ), (40 : ℚ))] (by decide)
  rw [show gaussian_kde_check [((60 : ℚ), (40 : ℚ))]
      = .error PyError.linAlgError from rfl] at h
  simp at h

/-- Claim C4 (amended): on every degenerate point set — fewer than 2 points
or all points identical — the estimator's construction fails with an error
(`ValueError` on the empty input, `LinAlgError` otherwise) instead of
producing a surface; it just is not the specification's
`InsufficientDataError`. -/
theorem c4_degenerate_fails (pts : List (ℚ × ℚ)) (h : degenerate pts = true) :
    isError (gaussian_kde_check pts) = true := by
  have h' : pts.length < 2 ∨ all_same pts = true := by
    simpa only [degenerate, Bool.or_eq_true, decide_eq_true_eq] using h
  rcases h' with hlen | hsame
  · unfold gaussian_kde_check
    split
    · rfl
    · rename_i hgate
      have hd : (decide (2 ≤ pts.length)) = false := decide_eq_false (by omega)
      have hc : cov_posdef pts = false := by
        unfold cov_posdef
        rw [hd]
        rfl
      simp [isError, hc]
  · have hc := cov_posdef_all_same hsame
    unfold gaussian_kde_check
    split
    · rfl
    · simp [isError, hc]

theorem c4_witness :
    degenerate [((60 : ℚ), (40 : ℚ))] = true
      ∧ isError (gaussian_kde_check [((60 : ℚ), (40 : ℚ))]) = true :=
  ⟨by decide, c4_degenerate_fails [((60 : ℚ), (40 : ℚ))] (by decide)⟩

/-! ### Claim C5 -/

/-- Claim C5, as stated, is false in its error class: on an unparsable
serialized field the normalizer raises the literal parser's own
`ValueError`, not a `MalformedFieldError` — no such class exists in the
source. -/
theorem c5_counterexample :
    ¬ (∀ s : String, literal_eval s = none →
        normalize_location (Field.str s) = .error PyError.malformedFieldError) := by
  intro hclaim
  have h := hclaim "not a list" (by decide)
  rw [show normalize_location (Field.str "not a list")
      = .error PyError.valueError from rfl] at h
  simp at h

/-- Claim C5 (amended): serialized location fields are decoded with the
safe literal parser only — a string is either parsed to the structured
list the literal denotes, or the call fails with the parser's `ValueError`
(not the specification's `MalformedFieldError`); an undecoded string is
never passed through silently. -/
theorem c5_literal_decoding (s : String) :
    (literal_eval s = none →
      normalize_location (Field.str s) = .error PyError.valueError)
      ∧ ∀ xs, literal_eval s = some xs →
          normalize_location (Field.str s) = .ok (Field.list xs) := by
  constructor
  · intro h
    simp [normalize_location, h]
  · intro xs h
    simp [normalize_location, h]

theorem c5_witness :
    literal_eval "not a list" = none
      ∧ normalize_location (Field.str "not a list") = .error PyError.valueError :=
  ⟨by decide, (c5_literal_decoding "not a list").1 (by decide)⟩

/-! ### Claim C7 -/

/-- A goalkeeper position interval starting at kickoff. -/
def c7_goalkeeper_entry : PositionEntry := ⟨"Goalkeeper", some "00:00", some "90:00"⟩

/-- A forward position interval starting at minute 65:23. -/
def c7_forward_entry : PositionEntry := ⟨"Forward", some "65:23", some "90:00"⟩

/-- Claim C7: a lineup row is classified starting iff some element of its
`positions` list has `"from"` equal to `"00:00"`, and substitute otherwise;
in particular the goalkeeper entry starting at `00:00` is starting and the
forward entry starting at `65:23` is a substitute. -/
theorem c7_starting_rule :
    (∀ (lineup : List AppLineupRow) (r : AppLineupRow),
      (r ∈ starting_players lineup ↔ r ∈ lineup
        ∧ ∃ d ∈ r.positions, d.start_time = some "00:00")
      ∧ (r ∈ substitute_players lineup ↔ r ∈ lineup
        ∧ ¬∃ d ∈ r.positions, d.start_time = some "00:00"))
      ∧ is_starting [c7_goalkeeper_entry] = true
      ∧ is_starting [c7_forward_entry] = false := by
  refine ⟨?_, by decide, by decide⟩
  intro lineup r
  constructor
  · rw [starting_players, List.mem_filter]
    simp [is_starting, List.any_eq_true]
  · rw [substitute_players, List.mem_filter]
    simp [is_starting, List.any_eq_true]

/-! ### Claim C8 -/

theorem shot_marker_ok {e : Event} {mk : ShotMarker} (h : shot_marker e = .ok mk) :
    mk.size = 1500 * e.shot_statsbomb_xg := by
  unfold shot_marker at h
  split at h
  · simp only [Except.ok.injEq] at h
    rw [← h]
  · exact absurd h (by simp)

/-- An open-play shot whose recorded xg is 2 — far outside [0, 1]. -/
def c8_big_xg_shot : Event :=
  { id := 50, match_id := 1, team := "A", player := "P", type := "Shot", minute := 9,
    pass_type := none, pass_outcome := none, location := Field.list [100, 40],
    pass_end_location := Field.null, shot_type := some "Open Play",
    shot_outcome := some "Saved", shot_statsbomb_xg := 2 }

/-- Claim C8, as stated, is false: an out-of-range xg is not flagged — the
shot catalog performs no validation, and `shot_map` renders the shot with
marker size `1500 * xg` computed from the raw value, here `3000` for
`xg = 2`. -/
theorem c8_counterexample :
    ¬ (∀ (events : List Event) (team : String) (mid : ℕ) (ms : List ShotMarker),
        shot_map_markers events team mid = .ok ms →
        ∀ mk ∈ ms, 0 ≤ mk.size ∧ mk.size ≤ 1500) := by
  intro hclaim
  have h := (hclaim [c8_big_xg_shot] "A" 1 [⟨100, 40, 1500 * 2, false⟩] rfl
    ⟨100, 40, 1500 * 2, false⟩ (by simp)).2
  have h2 : (1500 : ℚ) * 2 ≤ 1500 := h
  norm_num at h2

/-- Claim C8 (amended): the xg of a shot is neither validated nor clamped —
whenever the shot pipeline succeeds, the drawn marker sizes are exactly
`1500 *` the raw `shot_statsbomb_xg` of the team's retained non-penalty
shots, whatever their range. -/
theorem c8_xg_unchecked (events : List Event) (team : String) (mid : ℕ)
    (ms : List ShotMarker) (h : shot_map_markers events team mid = .ok ms) :
    ms.map ShotMarker.size
      = (events.filter fun e =>
          e.match_id == mid && e.type == "Shot" && e.team == team
            && e.shot_type != some "Penalty").map
        (fun e => 1500 * e.shot_statsbomb_xg) := by
  cases hfs : filter_shots events team mid with
  | error err => simp only [shot_map_markers, hfs] at h; exact absurd h (by simp)
  | ok shots =>
    simp only [shot_map_markers, hfs] at h
    have hmk := mapExcept_ok_forall₂ h
    have hstep1 : ((shots.filter fun e => e.shot_type != some "Penalty").map
          fun e => 1500 * e.shot_statsbomb_xg) = ms.map ShotMarker.size :=
      forall₂_map_eq (f := fun e => 1500 * e.shot_statsbomb_xg) (g := ShotMarker.size)
        (fun a b hab => (shot_marker_ok hab).symm) hmk
    have hnorm := mapExcept_ok_forall₂ hfs
    have hstep2 : (((events.filter fun e => e.match_id == mid).filter
            fun e => e.type == "Shot" && e.team == team).filter
          fun e => e.shot_type != some "Penalty").map (fun e => 1500 * e.shot_statsbomb_xg)
        = ((shots.filter fun e => e.shot_type != some "Penalty").map
          fun e => 1500 * e.shot_statsbomb_xg) := by
      refine forall₂_filter_map ?_ ?_ hnorm
      · intro a b hab
        obtain ⟨_, _, _, _, _, _, _, _, hst, _, _⟩ := normalize_event_loc_ok hab
        rw [hst]
      · intro a b hab
        obtain ⟨_, _, _, _, _, _, _, _, _, _, hxg⟩ := normalize_event_loc_ok hab
        rw [hxg]
    have hcomb : ((events.filter fun e => e.match_id == mid).filter
          fun e => e.type == "Shot" && e.team == team).filter
            (fun e => e.shot_type != some "Penalty")
        = events.filter fun e =>
            e.match_id == mid && e.type == "Shot" && e.team == team
              && e.shot_type != some "Penalty" := by
      rw [List.filter_filter, List.filter_filter]
      refine List.filter_congr ?_
      intro a _
      cases a.match_id == mid <;> cases a.type == "Shot" <;> cases a.team == team <;>
        cases a.shot_type != some "Penalty" <;> rfl
    rw [← hcomb, hstep2, hstep1]

theorem c8_witness :
    shot_map_markers [c8_big_xg_shot] "A" 1 = .ok [⟨100, 40, 1500 * 2, false⟩]
      ∧ [(⟨100, 40, 1500 * 2, false⟩ : ShotMarker)].map ShotMarker.size
          = ([c8_big_xg_shot].filter fun e =>
              e.match_id == 1 && e.type == "Shot" && e.team == "A"
                && e.shot_type != some "Penalty").map
            (fun e => 1500 * e.shot_statsbomb_xg) :=
  ⟨rfl, c8_xg_unchecked [c8_big_xg_shot] "A" 1 [⟨100, 40, 1500 * 2, false⟩] rfl⟩

/-! ### Claim C6 -/

theorem kde_sum_perm {pts pts' : List (ℚ × ℚ)} (h : pts.Perm pts') (f : ℚ × ℚ → ℝ) :
    kde_sum pts f = kde_sum pts' f :=
  (h.map f).sum_eq

theorem kde_n_perm {pts pts' : List (ℚ × ℚ)} (h : pts.Perm pts') :
    kde_n pts = kde_n pts' := by
  unfold kde_n
  rw [h.length_eq]

theorem kde_mean_x_perm {pts pts' : List (ℚ × ℚ)} (h : pts.Perm pts') :
    kde_mean_x pts = kde_mean_x pts' := by
  unfold kde_mean_x
  rw [kde_sum_perm h, kde_n_perm h]

theorem kde_mean_y_perm {pts pts' : List (ℚ × ℚ)} (h : pts.Perm pts') :
    kde_mean_y pts = kde_mean_y pts' := by
  unfold kde_mean_y
  rw [kde_sum_perm h, kde_n_perm h]

theorem scotts_factor_perm {pts pts' : List (ℚ × ℚ)} (h : pts.Perm pts') :
    scotts_factor pts = scotts_factor pts' := by
  unfold scotts_factor
  rw [kde_n_perm h]

theorem kde_cov_xx_perm {pts pts' : List (ℚ × ℚ)} (h : pts.Perm pts') :
    kde_cov_xx pts = kde_cov_xx pts' := by
  unfold kde_cov_xx
  rw [scotts_factor_perm h, kde_mean_x_perm h, kde_sum_perm h, kde_n_perm h]

theorem kde_cov_yy_perm {pts pts' : List (ℚ × ℚ)} (h : pts.Perm pts') :
    kde_cov_yy pts = kde_cov_yy pts' := by
  unfold kde_cov_yy
  rw [scotts_factor_perm h, kde_mean_y_perm h, kde_sum_perm h, kde_n_perm h]

theorem kde_cov_xy_perm {pts pts' : List (ℚ × ℚ)} (h : pts.Perm pts') :
    kde_cov_xy pts = kde_cov_xy pts' := by
  unfold kde_cov_xy
  rw [scotts_factor_perm h, kde_mean_x_perm h, kde_mean_y_perm h, kde_sum_perm h,
    kde_n_perm h]

theorem kde_det_perm {pts pts' : List (ℚ × ℚ)} (h : pts.Perm pts') :
    kde_det pts = kde_det pts' := by
  unfold kde_det
  rw [kde_cov_xx_perm h, kde_cov_yy_perm h, kde_cov_xy_perm h]

theorem kde_quadform_perm {pts pts' : List (ℚ × ℚ)} (h : pts.Perm pts')
    (p : ℝ × ℝ) (q : ℚ × ℚ) : kde_quadform pts p q = kde_quadform pts' p q := by
  unfold kde_quadform
  rw [kde_cov_xx_perm h, kde_cov_yy_perm h, kde_cov_xy_perm h, kde_det_perm h]

theorem kde_density_perm {pts pts' : List (ℚ × ℚ)} (h : pts.Perm pts') (p : ℝ × ℝ) :
    kde_density pts p = kde_density pts' p := by
  unfold kde_density
  have hq : (fun q => Real.exp (-(1 / 2) * kde_quadform pts p q))
      = fun q => Real.exp (-(1 / 2) * kde_quadform pts' p q) := by
    funext q
    rw [kde_quadform_perm h]
  rw [hq, kde_sum_perm h, kde_n_perm h, kde_det_perm h]

/-- Claim C6: on a non-degenerate point set, the KDE surface sampled on the
fixed pitch grid is invariant under any permutation of the input points. -/
theorem c6_perm_invariance (pts pts' : List (ℚ × ℚ)) (hperm : pts.Perm pts')
    (hpre : degenerate pts = false) : kde_surface pts = kde_surface pts' := by
  unfold kde_surface
  have hfun : (fun p => kde_density pts p) = fun p => kde_density pts' p :=
    funext fun p => kde_density_perm hperm p
  rw [hfun]

theorem c6_witness :
    ([((0 : ℚ), (0 : ℚ)), ((100 : ℚ), (0 : ℚ)), ((0 : ℚ), (50 : ℚ))].Perm
        [((100 : ℚ), (0 : ℚ)), ((0 : ℚ), (0 : ℚ)), ((0 : ℚ), (50 : ℚ))]
      ∧ degenerate [((0 : ℚ), (0 : ℚ)), ((100 : ℚ), (0 : ℚ)), ((0 : ℚ), (50 : ℚ))] = false)
      ∧ kde_surface [((0 : ℚ), (0 : ℚ)), ((100 : ℚ), (0 : ℚ)), ((0 : ℚ), (50 : ℚ))]
        = kde_surface [((100 : ℚ), (0 : ℚ)), ((0 : ℚ), (0 : ℚ)), ((0 : ℚ), (50 : ℚ))] :=
  ⟨⟨by decide, by decide⟩,
    c6_perm_invariance _ _ (by decide) (by decide)⟩

end CoolStat
